import Mathlib

/-!
Shallow embedding of the capture/session state machine of `src/index.js`
(a voice-chat recording bot).  The module-level mutable state of the
JavaScript program — `isRecording`, `recordingSession`, `connection`, the
`userStreams` Map and the `endTimers` Map — becomes a `BotState` record, and
each event handler (the `receiver.speaking` 'start' and 'end' handlers, the
`setTimeout` debounce callback, and the `/record` and `/stop` slash-command
handlers) becomes a function `BotState → BotState` (commands additionally
return the reply sent to the caller).  Timestamps are `Nat` milliseconds
(`Date.now()`); the single serialized JavaScript event loop is modelled by
processing events, and firing due timers, in order.
-/

namespace Ricardo

/-! ### JavaScript `Map` as an association list -/

/-- `map.get(k)`: first binding of `k`, if any. -/
def lookupKey (k : String) : List (String × α) → Option α
  | [] => none
  | (k', v) :: rest => if k' = k then some v else lookupKey k rest

/-- `map.has(k)`. -/
def containsKey (k : String) (l : List (String × α)) : Bool :=
  (lookupKey k l).isSome

/-- `map.delete(k)`: remove the binding(s) of `k`. -/
def eraseKey (k : String) : List (String × α) → List (String × α)
  | [] => []
  | (k', v) :: rest =>
    if k' = k then eraseKey k rest else (k', v) :: eraseKey k rest

/-- `map.set(k, v)`: replace the binding of `k` in place, or append it. -/
def setKey (k : String) (v : α) : List (String × α) → List (String × α)
  | [] => [(k, v)]
  | (k', w) :: rest =>
    if k' = k then (k', v) :: rest else (k', w) :: setKey k v rest

/-! ### Data model -/

/-- The per-speaker record stored in `userStreams`
(`{ writeStream, opusStream, user, startTime, pcmFilename, wavFilename }`).
The two stream handles carry no observable state of their own here; `gen` is
a ghost allocation counter standing for JavaScript object identity (each
`userStreams.set` in the 'start' handler stores a freshly allocated object). -/
structure StreamInfo where
  user : String
  startTime : Nat
  pcmFilename : String
  wavFilename : String
  gen : Nat
deriving Repr, DecidableEq

/-- A pending `setTimeout` handle in `endTimers`: its deadline, plus the
ghost identity of the stream record that was pending when it was armed. -/
structure TimerInfo where
  fireAt : Nat
  armedGen : Nat
deriving Repr, DecidableEq

/-- One transcription entry pushed by `transcribeAndAddToSession`
(downstream, asynchronous — the core never appends these itself). -/
structure Transcription where
  user : String
  text : String
  audioFile : String
deriving Repr, DecidableEq

/-- The `recordingSession` object. -/
structure Session where
  sessionId : Nat
  startTime : Nat
  endTime : Option Nat
  channelName : String
  transcriptions : List Transcription
deriving Repr, DecidableEq

/-- What the debounce-timer callback hands to the asynchronous
conversion/transcription pipeline (`setImmediate` block): the finalized
turn.  `durationMillis` is `Date.now() - currentInfo.startTime` computed at
callback run time. -/
structure TurnResult where
  userId : String
  user : String
  startTimestamp : Nat
  durationMillis : Nat
  wavFilename : String
deriving Repr, DecidableEq

/-- The module-level mutable state of `index.js`.  `dispatched` is the
observable log of turns handed to the conversion/transcription pipeline. -/
structure BotState where
  isRecording : Bool
  recordingSession : Option Session
  userStreams : List (String × StreamInfo)
  endTimers : List (String × TimerInfo)
  connection : Bool
  nextGen : Nat
  dispatched : List TurnResult
deriving Repr, DecidableEq

/-- State at process start. -/
def initState : BotState :=
  { isRecording := false, recordingSession := none, userStreams := [],
    endTimers := [], connection := false, nextGen := 0, dispatched := [] }

/-- Environment: `client.users.fetch(userId).username` resolution. -/
structure Env where
  usernames : String → String

/-- `const AUTHORIZED_USER_ID = '356096935062405120'`. -/
def AUTHORIZED_USER_ID : String := "356096935062405120"

/-- The debounce delay of the end timer: `setTimeout(..., 1000)`. -/
def DEBOUNCE_MS : Nat := 1000

/-- Reply/result of a slash-command handler. -/
inductive CmdResult where
  | notAuthorized
  | alreadyRecording
  | notInVoice
  | noActiveSession
  | started (sessionId : Nat)
  | stopped (snapshot : Session)
deriving Repr, DecidableEq

/-! ### Event handlers -/

/-- The timer-cancellation step at the top of the 'start' handler:
`if (endTimers.has(userId)) { clearTimeout(...); endTimers.delete(userId); }` -/
def cancelTimer (uid : String) (s : BotState) : BotState :=
  if containsKey uid s.endTimers then
    { s with endTimers := eraseKey uid s.endTimers }
  else s

/-- `sessionId` closed over by the per-session handlers. -/
def currentSessionId (s : BotState) : Nat :=
  match s.recordingSession with
  | some sess => sess.sessionId
  | none => 0

/-- The fresh record the 'start' handler stores: resolved username,
`startTime = Date.now()`, per-turn filenames built from the session id, user
id and timestamp, and the next ghost allocation id. -/
def freshInfo (env : Env) (now : Nat) (uid : String) (s : BotState) : StreamInfo :=
  { user := env.usernames uid
    startTime := now
    pcmFilename :=
      "session_" ++ toString (currentSessionId s) ++ "_" ++ uid ++ "_" ++
        toString now ++ ".pcm"
    wavFilename :=
      "session_" ++ toString (currentSessionId s) ++ "_" ++ uid ++ "_" ++
        toString now ++ ".wav"
    gen := s.nextGen }

/-- The tail of the 'start' handler's `try` block: open the streams and
`userStreams.set(userId, {...})` a fresh record. -/
def storeNewTurn (env : Env) (now : Nat) (uid : String) (s : BotState) : BotState :=
  { s with userStreams := setKey uid (freshInfo env now uid s) s.userStreams,
           nextGen := s.nextGen + 1 }

/-- The 'start' handler's `catch` block:
`if (userStreams.has(userId)) { userStreams.delete(userId); }`. -/
def catchCleanup (uid : String) (s : BotState) : BotState :=
  if containsKey uid s.userStreams then
    { s with userStreams := eraseKey uid s.userStreams }
  else s

/-- `receiver.speaking.on('start', ...)`, the successful path: bail if not
recording; cancel any pending end timer; if the user is already being
recorded, continue the existing stream (no new state); otherwise store a
fresh record in `userStreams`. -/
def onSpeakStart (env : Env) (now : Nat) (uid : String) (s : BotState) : BotState :=
  if !s.isRecording then s
  else if containsKey uid (cancelTimer uid s).userStreams then cancelTimer uid s
  else storeNewTurn env now uid (cancelTimer uid s)

/-- `receiver.speaking.on('start', ...)`, the error path: one of the awaited
steps of the `try` block (user fetch, mkdir, stream setup) threw before
`userStreams.set` ran, and the `catch` block deletes the user's entry if
present.  The timer cancellation at the top of the handler has already
happened by then. -/
def onSpeakStartErr (uid : String) (s : BotState) : BotState :=
  if !s.isRecording then s
  else if containsKey uid (cancelTimer uid s).userStreams then cancelTimer uid s
  else catchCleanup uid (cancelTimer uid s)

/-- `receiver.speaking.on('end', ...)`: bail if not recording; if the user
has no active stream, ignore the event; otherwise clear any existing end
timer and arm a fresh one for `now + DEBOUNCE_MS` (net `Map` effect of
`clearTimeout` + `setTimeout` + `endTimers.set`). -/
def onSpeakEnd (now : Nat) (uid : String) (s : BotState) : BotState :=
  if !s.isRecording then s
  else
    match lookupKey uid s.userStreams with
    | none => s
    | some info =>
      let tmr : TimerInfo := { fireAt := now + DEBOUNCE_MS, armedGen := info.gen }
      { s with endTimers := setKey uid tmr s.endTimers }

/-- The finalized turn built by the timer callback at run time `now`. -/
def mkTurnResult (env : Env) (now : Nat) (uid : String) (info : StreamInfo) :
    TurnResult :=
  { userId := uid
    user := env.usernames uid
    startTimestamp := info.startTime
    durationMillis := now - info.startTime
    wavFilename := info.wavFilename }

/-- The body of the debounce `setTimeout` callback, run at time `now`:
re-read `userStreams`; if the user is no longer there, just drop the timer
registration; otherwise destroy/flush the streams, delete the user from both
maps, resolve the user (on failure, `fetchErr`, the `catch` clause force
cleans both maps and nothing is dispatched), compute
`duration = now - startTime`, and hand the turn to the asynchronous
conversion/transcription pipeline. -/
def timerCallback (env : Env) (now : Nat) (uid : String) (fetchErr : Bool)
    (s : BotState) : BotState :=
  match lookupKey uid s.userStreams with
  | none => { s with endTimers := eraseKey uid s.endTimers }
  | some info =>
    if fetchErr then
      { s with userStreams := eraseKey uid s.userStreams,
               endTimers := eraseKey uid s.endTimers }
    else
      { s with userStreams := eraseKey uid s.userStreams,
               endTimers := eraseKey uid s.endTimers,
               dispatched := s.dispatched ++ [mkTurnResult env now uid info] }

/-- A registered timer fires: the callback runs at its deadline.  A timer
that is not registered cannot run (`clearTimeout` / `endTimers.clear`
prevent it). -/
def fireRegistered (env : Env) (uid : String) (fetchErr : Bool)
    (s : BotState) : BotState :=
  match lookupKey uid s.endTimers with
  | none => s
  | some tmr => timerCallback env tmr.fireAt uid fetchErr s

/-- The `/record` slash-command handler: authorization check, then
`AlreadyRecording` rejection, then voice-channel check; otherwise start a
session (`sessionId = Date.now()`) and join the voice channel. -/
def handleRecord (now : Nat) (caller : String) (voice : Option String)
    (s : BotState) : CmdResult × BotState :=
  if caller ≠ AUTHORIZED_USER_ID then (CmdResult.notAuthorized, s)
  else if s.isRecording then (CmdResult.alreadyRecording, s)
  else
    match voice with
    | none => (CmdResult.notInVoice, s)
    | some ch =>
      let sess : Session :=
        { sessionId := now, startTime := now, endTime := none,
          channelName := ch, transcriptions := [] }
      (CmdResult.started now,
       { s with isRecording := true, recordingSession := some sess,
                connection := true })

/-- The `/stop` slash-command handler: authorization check, then
`NoActiveSession` rejection; otherwise clear `isRecording`, set the
session's `endTime`, destroy/flush every active stream, clear every end
timer, clear both maps, destroy the voice connection, persist the session
snapshot (returned here), and null out `recordingSession`.  Note the
in-flight streams get only this cleanup — the timer finalize path (duration
computation, conversion/transcription dispatch) is not invoked for them. -/
def handleStop (now : Nat) (caller : String) (s : BotState) :
    CmdResult × BotState :=
  if caller ≠ AUTHORIZED_USER_ID then (CmdResult.notAuthorized, s)
  else if !s.isRecording then (CmdResult.noActiveSession, s)
  else
    match s.recordingSession with
    | none =>
      -- unreachable in any reachable state (`isRecording` implies a live
      -- session object); the JavaScript would throw on `recordingSession.endTime`
      (CmdResult.noActiveSession, s)
    | some sess =>
      let sess' := { sess with endTime := some now }
      (CmdResult.stopped sess',
       { s with isRecording := false, recordingSession := none,
                userStreams := [], endTimers := [], connection := false })

/-! ### The serialized event loop -/

/-- External events, each stamped with its `Date.now()` arrival time. -/
inductive Event where
  | record (t : Nat) (caller : String) (voice : Option String)
  | stop (t : Nat) (caller : String)
  | speakStart (t : Nat) (uid : String)
  | speakStartErr (t : Nat) (uid : String)
  | speakEnd (t : Nat) (uid : String)
deriving Repr, DecidableEq

/-- Arrival time of an event. -/
def Event.time : Event → Nat
  | .record t _ _ => t
  | .stop t _ => t
  | .speakStart t _ => t
  | .speakStartErr t _ => t
  | .speakEnd t _ => t

/-- Dispatch one external event to its handler. -/
def handleEvent (env : Env) (e : Event) (s : BotState) : BotState :=
  match e with
  | .record t caller voice => (handleRecord t caller voice s).2
  | .stop t caller => (handleStop t caller s).2
  | .speakStart t uid => onSpeakStart env t uid s
  | .speakStartErr _ uid => onSpeakStartErr uid s
  | .speakEnd t uid => onSpeakEnd t uid s

/-- Fire (in registration order) every timer whose deadline has passed by
`now`; each callback runs at its own deadline. -/
def fireDue (env : Env) (now : Nat) (s : BotState) : BotState :=
  ((s.endTimers.filter (fun p => decide (p.2.fireAt ≤ now))).map Prod.fst).foldl
    (fun st uid => fireRegistered env uid false st) s

/-- One event-loop step: timers due before the event's arrival run first,
then the event's handler. -/
def stepEvent (env : Env) (s : BotState) (e : Event) : BotState :=
  handleEvent env e (fireDue env e.time s)

/-- Run a trace of external events from process start. -/
def run (env : Env) (events : List Event) : BotState :=
  events.foldl (stepEvent env) initState

/-- No further activity: every still-registered timer eventually fires at
its deadline. -/
def flushTimers (env : Env) (s : BotState) : BotState :=
  (s.endTimers.map Prod.fst).foldl
    (fun st uid => fireRegistered env uid false st) s

/-- States reachable from process start under the serialized event loop:
any interleaving of handler invocations and registered-timer firings
(with or without a user-fetch failure in the callback). -/
inductive Reachable (env : Env) : BotState → Prop where
  | init : Reachable env initState
  | record : ∀ t caller voice s, Reachable env s →
      Reachable env (handleRecord t caller voice s).2
  | stop : ∀ t caller s, Reachable env s →
      Reachable env (handleStop t caller s).2
  | speakStart : ∀ t uid s, Reachable env s →
      Reachable env (onSpeakStart env t uid s)
  | speakStartErr : ∀ uid s, Reachable env s →
      Reachable env (onSpeakStartErr uid s)
  | speakEnd : ∀ t uid s, Reachable env s →
      Reachable env (onSpeakEnd t uid s)
  | timerFire : ∀ uid fetchErr s, Reachable env s →
      Reachable env (fireRegistered env uid fetchErr s)

/-! ### Invariants relating the two maps -/

/-- Every registered end timer was armed for the stream record currently
stored for that speaker (ghost identity agreement): a stale timer for a
replaced turn never survives in `endTimers`. -/
def TimerInv (s : BotState) : Prop :=
  ∀ uid tmr, lookupKey uid s.endTimers = some tmr →
    ∃ info, lookupKey uid s.userStreams = some info ∧ info.gen = tmr.armedGen

/-- The timer map's key set is included in the stream map's key set:
every speaker with a pending end timer also has an active stream entry. -/
def TimerStreamSubset (s : BotState) : Bool :=
  s.endTimers.all (fun p => containsKey p.1 s.userStreams)

/-! ### Concrete scenario states -/

/-- Sample username resolution. -/
def envA : Env := { usernames := fun _ => "alice" }

/-- Session started at t = 0 in channel "general". -/
def wsBase : BotState :=
  (handleRecord 0 AUTHORIZED_USER_ID (some "general") initState).2

/-- Speaker "A" capturing since t = 0. -/
def wsCapturing : BotState := onSpeakStart envA 0 "A" wsBase

/-- Speaker "A" end-pending: the stop event at t = 2000 armed the 1000 ms
debounce timer for t = 3000. -/
def wsPending : BotState := onSpeakEnd 2000 "A" wsCapturing

/-- The session-stop scenario: session started at t = 0, speaker "A" in
flight (Capturing) since t = 100, session stopped at t = 200. -/
def c1Pre : BotState :=
  run envA [Event.record 0 AUTHORIZED_USER_ID (some "general"),
            Event.speakStart 100 "A"]

/-- Debounce-merge scenario (debounce constant 1000 ms): speaker "A" starts
at 0, stops at 2000, restarts at 2500, stops at 4000, then nothing. -/
def c3Events : List Event :=
  [Event.record 0 AUTHORIZED_USER_ID (some "general"),
   Event.speakStart 0 "A",
   Event.speakEnd 2000 "A",
   Event.speakStart 2500 "A",
   Event.speakEnd 4000 "A"]

/-- Final state of the debounce-merge scenario once the last timer fires. -/
def c3Final : BotState := flushTimers envA (run envA c3Events)

/-! ### Association-list lemmas -/

theorem lookupKey_eraseKey_self (k : String) (l : List (String × α)) :
    lookupKey k (eraseKey k l) = none := by
  induction l with
  | nil => rfl
  | cons p rest ih =>
    obtain ⟨a, v⟩ := p
    by_cases h : a = k
    · simp [eraseKey, h, ih]
    · simp [eraseKey, lookupKey, h, ih]

theorem lookupKey_eraseKey_ne (k k' : String) (l : List (String × α))
    (h : k' ≠ k) : lookupKey k' (eraseKey k l) = lookupKey k' l := by
  induction l with
  | nil => rfl
  | cons p rest ih =>
    obtain ⟨a, v⟩ := p
    by_cases ha : a = k
    · subst ha
      have ha' : a ≠ k' := fun hh => h (hh ▸ rfl)
      simp [eraseKey, lookupKey, ha', ih]
    · by_cases hb : a = k'
      · simp [eraseKey, lookupKey, ha, hb, h]
      · simp [eraseKey, lookupKey, ha, hb, ih]

theorem lookupKey_setKey_self (k : String) (v : α) (l : List (String × α)) :
    lookupKey k (setKey k v l) = some v := by
  induction l with
  | nil => simp [setKey, lookupKey]
  | cons p rest ih =>
    obtain ⟨a, w⟩ := p
    by_cases h : a = k
    · simp [setKey, lookupKey, h]
    · simp [setKey, lookupKey, h, ih]

theorem lookupKey_setKey_ne (k k' : String) (v : α) (l : List (String × α))
    (h : k' ≠ k) : lookupKey k' (setKey k v l) = lookupKey k' l := by
  induction l with
  | nil =>
    have h' : k ≠ k' := fun hh => h (hh ▸ rfl)
    simp [setKey, lookupKey, h']
  | cons p rest ih =>
    obtain ⟨a, w⟩ := p
    by_cases ha : a = k
    · subst ha
      have ha' : a ≠ k' := fun hh => h (hh ▸ rfl)
      simp [setKey, lookupKey, ha']
    · by_cases hb : a = k'
      · simp [setKey, lookupKey, ha, hb, h]
      · simp [setKey, lookupKey, ha, hb, ih]

theorem eraseKey_of_lookup_none (k : String) (l : List (String × α))
    (h : lookupKey k l = none) : eraseKey k l = l := by
  induction l with
  | nil => rfl
  | cons p rest ih =>
    obtain ⟨a, v⟩ := p
    by_cases ha : a = k
    · simp [lookupKey, ha] at h
    · simp only [lookupKey, ha, if_false] at h
      simp [eraseKey, ha, ih h]

theorem lookupKey_isSome_of_mem (k : String) (v : α) (l : List (String × α))
    (h : (k, v) ∈ l) : (lookupKey k l).isSome = true := by
  induction l with
  | nil => cases h
  | cons p rest ih =>
    obtain ⟨a, w⟩ := p
    by_cases ha : a = k
    · simp [lookupKey, ha]
    · rcases List.mem_cons.mp h with heq | hmem
      · cases heq; exact absurd rfl ha
      · simp [lookupKey, ha, ih hmem]

theorem mem_of_lookupKey_eq_some (k : String) (v : α) (l : List (String × α))
    (h : lookupKey k l = some v) : (k, v) ∈ l := by
  induction l with
  | nil => simp [lookupKey] at h
  | cons p rest ih =>
    obtain ⟨a, w⟩ := p
    by_cases ha : a = k
    · subst ha
      simp only [lookupKey, if_true, eq_self_iff_true] at h
      simp only [Option.some.injEq] at h
      subst h; exact List.mem_cons_self _ _
    · simp only [lookupKey, ha, if_false] at h
      exact List.mem_cons_of_mem _ (ih h)

/-- The `Bool` key-set inclusion, characterized on lookups. -/
theorem timerStreamSubset_spec (s : BotState) :
    TimerStreamSubset s = true ↔
      ∀ uid, (lookupKey uid s.endTimers).isSome = true →
        (lookupKey uid s.userStreams).isSome = true := by
  unfold TimerStreamSubset
  rw [List.all_eq_true]
  constructor
  · intro h uid htm
    cases hl : lookupKey uid s.endTimers with
    | none => rw [hl] at htm; cases htm
    | some tmr =>
      have hmem := mem_of_lookupKey_eq_some uid tmr s.endTimers hl
      exact h _ hmem
  · intro h p hmem
    obtain ⟨u, tmr⟩ := p
    exact h u (lookupKey_isSome_of_mem u tmr s.endTimers hmem)

/-! ### Handler shape lemmas -/

theorem cancelTimer_eq (uid : String) (s : BotState) :
    cancelTimer uid s = { s with endTimers := eraseKey uid s.endTimers } := by
  unfold cancelTimer
  split
  · rfl
  · next h =>
    have hl : lookupKey uid s.endTimers = none := by
      unfold containsKey at h
      cases hl : lookupKey uid s.endTimers with
      | none => rfl
      | some v => rw [hl] at h; simp at h
    rw [eraseKey_of_lookup_none uid s.endTimers hl]

theorem cancelTimer_userStreams (uid : String) (s : BotState) :
    (cancelTimer uid s).userStreams = s.userStreams := by
  rw [cancelTimer_eq]

theorem onSpeakStart_eq_of_not_recording (env : Env) (t : Nat) (uid : String)
    (s : BotState) (h : s.isRecording = false) :
    onSpeakStart env t uid s = s := by
  simp [onSpeakStart, h]

theorem onSpeakStart_eq_continue (env : Env) (t : Nat) (uid : String)
    (s : BotState) (hrec : s.isRecording = true)
    (hus : containsKey uid s.userStreams = true) :
    onSpeakStart env t uid s = { s with endTimers := eraseKey uid s.endTimers } := by
  simp [onSpeakStart, hrec, cancelTimer_userStreams, hus, cancelTimer_eq]

theorem onSpeakStart_eq_new (env : Env) (t : Nat) (uid : String)
    (s : BotState) (hrec : s.isRecording = true)
    (hus : containsKey uid s.userStreams = false) :
    onSpeakStart env t uid s =
      storeNewTurn env t uid { s with endTimers := eraseKey uid s.endTimers } := by
  simp [onSpeakStart, hrec, cancelTimer_userStreams, hus, cancelTimer_eq]

theorem onSpeakStartErr_eq_of_not_recording (uid : String) (s : BotState)
    (h : s.isRecording = false) : onSpeakStartErr uid s = s := by
  simp [onSpeakStartErr, h]

theorem onSpeakStartErr_eq_of_recording (uid : String) (s : BotState)
    (hrec : s.isRecording = true) :
    onSpeakStartErr uid s = { s with endTimers := eraseKey uid s.endTimers } := by
  rcases Bool.eq_false_or_eq_true (containsKey uid s.userStreams) with hus | hus
  · simp [onSpeakStartErr, hrec, cancelTimer_userStreams, hus, cancelTimer_eq,
      catchCleanup]
  · simp [onSpeakStartErr, hrec, cancelTimer_userStreams, hus, cancelTimer_eq,
      catchCleanup]

theorem onSpeakEnd_eq_of_not_recording (t : Nat) (uid : String) (s : BotState)
    (h : s.isRecording = false) : onSpeakEnd t uid s = s := by
  simp [onSpeakEnd, h]

theorem onSpeakEnd_eq_of_none (t : Nat) (uid : String) (s : BotState)
    (h : lookupKey uid s.userStreams = none) : onSpeakEnd t uid s = s := by
  unfold onSpeakEnd
  split
  · rfl
  · rw [h]

theorem onSpeakEnd_eq_arm (t : Nat) (uid : String) (s : BotState)
    (info : StreamInfo) (hrec : s.isRecording = true)
    (h : lookupKey uid s.userStreams = some info) :
    onSpeakEnd t uid s =
      { s with endTimers :=
          setKey uid (TimerInfo.mk (t + DEBOUNCE_MS) info.gen) s.endTimers } := by
  unfold onSpeakEnd
  split
  · next hcond => rw [hrec] at hcond; simp at hcond
  · rw [h]

theorem timerCallback_eq_of_none (env : Env) (now : Nat) (uid : String)
    (fetchErr : Bool) (s : BotState) (h : lookupKey uid s.userStreams = none) :
    timerCallback env now uid fetchErr s =
      { s with endTimers := eraseKey uid s.endTimers } := by
  simp [timerCallback, h]

theorem timerCallback_eq_of_fetchErr (env : Env) (now : Nat) (uid : String)
    (s : BotState) (info : StreamInfo)
    (h : lookupKey uid s.userStreams = some info) :
    timerCallback env now uid true s =
      { s with userStreams := eraseKey uid s.userStreams,
               endTimers := eraseKey uid s.endTimers } := by
  simp [timerCallback, h]

theorem timerCallback_eq_finalize (env : Env) (now : Nat) (uid : String)
    (s : BotState) (info : StreamInfo)
    (h : lookupKey uid s.userStreams = some info) :
    timerCallback env now uid false s =
      { s with userStreams := eraseKey uid s.userStreams,
               endTimers := eraseKey uid s.endTimers,
               dispatched := s.dispatched ++ [mkTurnResult env now uid info] } := by
  simp [timerCallback, h]

theorem fireRegistered_eq_of_none (env : Env) (uid : String) (fetchErr : Bool)
    (s : BotState) (h : lookupKey uid s.endTimers = none) :
    fireRegistered env uid fetchErr s = s := by
  simp [fireRegistered, h]

theorem fireRegistered_eq_of_some (env : Env) (uid : String) (fetchErr : Bool)
    (s : BotState) (tmr : TimerInfo) (h : lookupKey uid s.endTimers = some tmr) :
    fireRegistered env uid fetchErr s = timerCallback env tmr.fireAt uid fetchErr s := by
  simp [fireRegistered, h]

theorem handleRecord_snd_userStreams (t : Nat) (c : String)
    (voice : Option String) (s : BotState) :
    (handleRecord t c voice s).2.userStreams = s.userStreams := by
  unfold handleRecord
  split
  · rfl
  · split
    · rfl
    · cases voice <;> rfl

theorem handleRecord_snd_endTimers (t : Nat) (c : String)
    (voice : Option String) (s : BotState) :
    (handleRecord t c voice s).2.endTimers = s.endTimers := by
  unfold handleRecord
  split
  · rfl
  · split
    · rfl
    · cases voice <;> rfl

theorem handleStop_snd_cases (t : Nat) (c : String) (s : BotState) :
    (handleStop t c s).2 = s ∨
      ((handleStop t c s).2.endTimers = [] ∧ (handleStop t c s).2.userStreams = []) := by
  unfold handleStop
  split
  · exact Or.inl rfl
  · split
    · exact Or.inl rfl
    · cases hs : s.recordingSession with
      | none => exact Or.inl (by simp [hs])
      | some sess => exact Or.inr (by simp [hs])

/-! ### Preservation of the timer/stream agreement invariant -/

theorem timerInv_initState : TimerInv initState := by
  intro uid tmr h
  simp [initState, lookupKey] at h

theorem timerInv_onSpeakStart (env : Env) (t : Nat) (uid : String)
    (s : BotState) (ht : TimerInv s) : TimerInv (onSpeakStart env t uid s) := by
  rcases Bool.eq_false_or_eq_true s.isRecording with hrec | hrec
  · rcases Bool.eq_false_or_eq_true (containsKey uid s.userStreams) with hus | hus
    · rw [onSpeakStart_eq_continue env t uid s hrec hus]
      intro u tmr h
      simp only at h ⊢
      by_cases hu : u = uid
      · subst hu
        rw [lookupKey_eraseKey_self u s.endTimers] at h
        cases h
      · rw [lookupKey_eraseKey_ne uid u s.endTimers hu] at h
        exact ht u tmr h
    · rw [onSpeakStart_eq_new env t uid s hrec hus]
      intro u tmr h
      simp only [storeNewTurn] at h ⊢
      by_cases hu : u = uid
      · subst hu
        rw [lookupKey_eraseKey_self u s.endTimers] at h
        cases h
      · rw [lookupKey_eraseKey_ne uid u s.endTimers hu] at h
        rcases ht u tmr h with ⟨info, hl, hg⟩
        refine ⟨info, ?_, hg⟩
        rw [lookupKey_setKey_ne uid u _ s.userStreams hu]
        exact hl
  · rw [onSpeakStart_eq_of_not_recording env t uid s hrec]; exact ht

theorem timerInv_onSpeakStartErr (uid : String) (s : BotState)
    (ht : TimerInv s) : TimerInv (onSpeakStartErr uid s) := by
  rcases Bool.eq_false_or_eq_true s.isRecording with hrec | hrec
  · rw [onSpeakStartErr_eq_of_recording uid s hrec]
    intro u tmr h
    simp only at h ⊢
    by_cases hu : u = uid
    · subst hu
      rw [lookupKey_eraseKey_self u s.endTimers] at h
      cases h
    · rw [lookupKey_eraseKey_ne uid u s.endTimers hu] at h
      exact ht u tmr h
  · rw [onSpeakStartErr_eq_of_not_recording uid s hrec]; exact ht

theorem timerInv_onSpeakEnd (t : Nat) (uid : String) (s : BotState)
    (ht : TimerInv s) : TimerInv (onSpeakEnd t uid s) := by
  rcases Bool.eq_false_or_eq_true s.isRecording with hrec | hrec
  case inr => rw [onSpeakEnd_eq_of_not_recording t uid s hrec]; exact ht
  case inl =>
    cases hinfo : lookupKey uid s.userStreams with
    | none => rw [onSpeakEnd_eq_of_none t uid s hinfo]; exact ht
    | some info =>
      rw [onSpeakEnd_eq_arm t uid s info hrec hinfo]
      intro u tmr h
      simp only at h ⊢
      by_cases hu : u = uid
      · subst hu
        rw [lookupKey_setKey_self u _ s.endTimers] at h
        cases h
        exact ⟨info, hinfo, rfl⟩
      · rw [lookupKey_setKey_ne uid u _ s.endTimers hu] at h
        exact ht u tmr h

theorem timerInv_timerCallback (env : Env) (now : Nat) (uid : String)
    (fetchErr : Bool) (s : BotState) (ht : TimerInv s) :
    TimerInv (timerCallback env now uid fetchErr s) := by
  cases hinfo : lookupKey uid s.userStreams with
  | none =>
    rw [timerCallback_eq_of_none env now uid fetchErr s hinfo]
    intro u tmr h
    simp only at h ⊢
    by_cases hu : u = uid
    · subst hu; rw [lookupKey_eraseKey_self u s.endTimers] at h; cases h
    · rw [lookupKey_eraseKey_ne uid u s.endTimers hu] at h
      exact ht u tmr h
  | some info =>
    have hgoal : TimerInv
        { s with userStreams := eraseKey uid s.userStreams,
                 endTimers := eraseKey uid s.endTimers } := by
      intro u tmr h
      simp only at h ⊢
      by_cases hu : u = uid
      · subst hu; rw [lookupKey_eraseKey_self u s.endTimers] at h; cases h
      · rw [lookupKey_eraseKey_ne uid u s.endTimers hu] at h
        rcases ht u tmr h with ⟨i, hl, hg⟩
        refine ⟨i, ?_, hg⟩
        rw [lookupKey_eraseKey_ne uid u s.userStreams hu]
        exact hl
    cases fetchErr with
    | true =>
      rw [timerCallback_eq_of_fetchErr env now uid s info hinfo]
      exact hgoal
    | false =>
      rw [timerCallback_eq_finalize env now uid s info hinfo]
      intro u tmr h
      simp only at h ⊢
      exact hgoal u tmr h

theorem timerInv_fireRegistered (env : Env) (uid : String) (fetchErr : Bool)
    (s : BotState) (ht : TimerInv s) :
    TimerInv (fireRegistered env uid fetchErr s) := by
  cases htm : lookupKey uid s.endTimers with
  | none => rw [fireRegistered_eq_of_none env uid fetchErr s htm]; exact ht
  | some tmr =>
    rw [fireRegistered_eq_of_some env uid fetchErr s tmr htm]
    exact timerInv_timerCallback env tmr.fireAt uid fetchErr s ht

theorem timerInv_handleRecord (t : Nat) (c : String) (voice : Option String)
    (s : BotState) (ht : TimerInv s) : TimerInv (handleRecord t c voice s).2 := by
  intro u tmr h
  rw [handleRecord_snd_endTimers t c voice s] at h
  rcases ht u tmr h with ⟨i, hl, hg⟩
  refine ⟨i, ?_, hg⟩
  rw [handleRecord_snd_userStreams t c voice s]
  exact hl

theorem timerInv_handleStop (t : Nat) (c : String) (s : BotState)
    (ht : TimerInv s) : TimerInv (handleStop t c s).2 := by
  rcases handleStop_snd_cases t c s with heq | ⟨htm, _⟩
  · rw [heq]; exact ht
  · intro u tmr h
    rw [htm] at h
    simp [lookupKey] at h

/-- Every state the event loop can reach satisfies the timer/stream
agreement invariant. -/
theorem reachable_timerInv (env : Env) (s : BotState)
    (hr : Reachable env s) : TimerInv s := by
  induction hr with
  | init => exact timerInv_initState
  | record t caller voice s _ ih => exact timerInv_handleRecord t caller voice s ih
  | stop t caller s _ ih => exact timerInv_handleStop t caller s ih
  | speakStart t uid s _ ih => exact timerInv_onSpeakStart env t uid s ih
  | speakStartErr uid s _ ih => exact timerInv_onSpeakStartErr uid s ih
  | speakEnd t uid s _ ih => exact timerInv_onSpeakEnd t uid s ih
  | timerFire uid fetchErr s _ ih => exact timerInv_fireRegistered env uid fetchErr s ih

/-! ### Preservation of the key-set inclusion -/

theorem subset_onSpeakStart (env : Env) (t : Nat) (uid : String)
    (s : BotState) (h : TimerStreamSubset s = true) :
    TimerStreamSubset (onSpeakStart env t uid s) = true := by
  rw [timerStreamSubset_spec] at h ⊢
  rcases Bool.eq_false_or_eq_true s.isRecording with hrec | hrec
  case inr => rw [onSpeakStart_eq_of_not_recording env t uid s hrec]; exact h
  case inl =>
    rcases Bool.eq_false_or_eq_true (containsKey uid s.userStreams) with hus | hus
    case inl =>
      rw [onSpeakStart_eq_continue env t uid s hrec hus]
      intro u htm
      simp only at htm ⊢
      by_cases hu : u = uid
      · subst hu; rw [lookupKey_eraseKey_self u s.endTimers] at htm; cases htm
      · rw [lookupKey_eraseKey_ne uid u s.endTimers hu] at htm
        exact h u htm
    case inr =>
      rw [onSpeakStart_eq_new env t uid s hrec hus]
      intro u htm
      simp only [storeNewTurn] at htm ⊢
      by_cases hu : u = uid
      · subst hu; rw [lookupKey_eraseKey_self u s.endTimers] at htm; cases htm
      · rw [lookupKey_eraseKey_ne uid u s.endTimers hu] at htm
        rw [lookupKey_setKey_ne uid u _ s.userStreams hu]
        exact h u htm

theorem subset_onSpeakStartErr (uid : String) (s : BotState)
    (h : TimerStreamSubset s = true) :
    TimerStreamSubset (onSpeakStartErr uid s) = true := by
  rw [timerStreamSubset_spec] at h ⊢
  rcases Bool.eq_false_or_eq_true s.isRecording with hrec | hrec
  case inr => rw [onSpeakStartErr_eq_of_not_recording uid s hrec]; exact h
  case inl =>
    rw [onSpeakStartErr_eq_of_recording uid s hrec]
    intro u htm
    simp only at htm ⊢
    by_cases hu : u = uid
    · subst hu; rw [lookupKey_eraseKey_self u s.endTimers] at htm; cases htm
    · rw [lookupKey_eraseKey_ne uid u s.endTimers hu] at htm
      exact h u htm

theorem subset_onSpeakEnd (t : Nat) (uid : String) (s : BotState)
    (h : TimerStreamSubset s = true) :
    TimerStreamSubset (onSpeakEnd t uid s) = true := by
  rw [timerStreamSubset_spec] at h ⊢
  rcases Bool.eq_false_or_eq_true s.isRecording with hrec | hrec
  case inr => rw [onSpeakEnd_eq_of_not_recording t uid s hrec]; exact h
  case inl =>
    cases hinfo : lookupKey uid s.userStreams with
    | none => rw [onSpeakEnd_eq_of_none t uid s hinfo]; exact h
    | some info =>
      rw [onSpeakEnd_eq_arm t uid s info hrec hinfo]
      intro u htm
      simp only at htm ⊢
      by_cases hu : u = uid
      · subst hu; rw [hinfo]; rfl
      · rw [lookupKey_setKey_ne uid u _ s.endTimers hu] at htm
        exact h u htm

theorem subset_timerCallback (env : Env) (now : Nat) (uid : String)
    (fetchErr : Bool) (s : BotState) (h : TimerStreamSubset s = true) :
    TimerStreamSubset (timerCallback env now uid fetchErr s) = true := by
  rw [timerStreamSubset_spec] at h ⊢
  cases hinfo : lookupKey uid s.userStreams with
  | none =>
    rw [timerCallback_eq_of_none env now uid fetchErr s hinfo]
    intro u htm
    simp only at htm ⊢
    by_cases hu : u = uid
    · subst hu; rw [lookupKey_eraseKey_self u s.endTimers] at htm; cases htm
    · rw [lookupKey_eraseKey_ne uid u s.endTimers hu] at htm
      exact h u htm
  | some info =>
    have key : ∀ u,
        (lookupKey u (eraseKey uid s.endTimers)).isSome = true →
        (lookupKey u (eraseKey uid s.userStreams)).isSome = true := by
      intro u htm
      by_cases hu : u = uid
      · subst hu; rw [lookupKey_eraseKey_self u s.endTimers] at htm; cases htm
      · rw [lookupKey_eraseKey_ne uid u s.endTimers hu] at htm
        rw [lookupKey_eraseKey_ne uid u s.userStreams hu]
        exact h u htm
    cases fetchErr with
    | true => rw [timerCallback_eq_of_fetchErr env now uid s info hinfo]; exact key
    | false => rw [timerCallback_eq_finalize env now uid s info hinfo]; exact key

theorem subset_fireRegistered (env : Env) (uid : String) (fetchErr : Bool)
    (s : BotState) (h : TimerStreamSubset s = true) :
    TimerStreamSubset (fireRegistered env uid fetchErr s) = true := by
  cases htm : lookupKey uid s.endTimers with
  | none => rw [fireRegistered_eq_of_none env uid fetchErr s htm]; exact h
  | some tmr =>
    rw [fireRegistered_eq_of_some env uid fetchErr s tmr htm]
    exact subset_timerCallback env tmr.fireAt uid fetchErr s h

theorem subset_handleRecord (t : Nat) (c : String) (voice : Option String)
    (s : BotState) (h : TimerStreamSubset s = true) :
    TimerStreamSubset (handleRecord t c voice s).2 = true := by
  rw [timerStreamSubset_spec] at h ⊢
  intro u htm
  rw [handleRecord_snd_endTimers t c voice s] at htm
  rw [handleRecord_snd_userStreams t c voice s]
  exact h u htm

theorem subset_handleStop (t : Nat) (c : String) (s : BotState)
    (h : TimerStreamSubset s = true) :
    TimerStreamSubset (handleStop t c s).2 = true := by
  rcases handleStop_snd_cases t c s with heq | ⟨htm, _⟩
  · rw [heq]; exact h
  · rw [timerStreamSubset_spec]
    intro u hl
    rw [htm] at hl
    simp [lookupKey] at hl

/-! ### The claims -/

/-- Claim C1, counterexample to the claim as stated.  Session started at
t = 0, speaker "A" is in flight (Capturing, no pending timer) at t = 200
when `/stop` runs.  The handler returns/persists the completed snapshot, but
the dispatch log stays empty and "A"'s entry is simply dropped: the in-flight
turn is NOT force-finalized through the timer finalize path — no duration is
computed and no conversion/transcription dispatch ever happens for it. -/
theorem endSession_no_dispatch_for_inflight_cx :
    (lookupKey "A" c1Pre.userStreams).isSome = true ∧
    c1Pre.endTimers = [] ∧
    (handleStop 200 AUTHORIZED_USER_ID c1Pre).1 =
      CmdResult.stopped (Session.mk 0 0 (some 200) "general" []) ∧
    (handleStop 200 AUTHORIZED_USER_ID c1Pre).2.dispatched = [] ∧
    (handleStop 200 AUTHORIZED_USER_ID c1Pre).2.userStreams = [] := by
  decide

/-- Claim C1 as amended: for every active session, `/stop` cancels every
pending debounce timer and destroys/flushes every in-flight turn's streams
(clearing both maps), closes the voice connection, sets the session's
`endTime`, and returns/persists the completed session snapshot — but it does
not invoke the timer finalize path for the in-flight turns: their dispatch
log is left exactly as it was (no duration computation, no
conversion/transcription dispatch for them). -/
theorem endSession_cleanup (t : Nat) (s : BotState) (sess : Session)
    (hrec : s.isRecording = true) (hsess : s.recordingSession = some sess) :
    handleStop t AUTHORIZED_USER_ID s =
      (CmdResult.stopped { sess with endTime := some t },
       { s with isRecording := false, recordingSession := none,
                userStreams := [], endTimers := [], connection := false }) ∧
    (handleStop t AUTHORIZED_USER_ID s).2.dispatched = s.dispatched := by
  have h1 : handleStop t AUTHORIZED_USER_ID s =
      (CmdResult.stopped { sess with endTime := some t },
       { s with isRecording := false, recordingSession := none,
                userStreams := [], endTimers := [], connection := false }) := by
    simp [handleStop, hrec, hsess]
  exact ⟨h1, by rw [h1]⟩

/-- Claim C1 witness at the concrete stop scenario. -/
theorem endSession_cleanup_witness :
    handleStop 200 AUTHORIZED_USER_ID c1Pre =
      (CmdResult.stopped (Session.mk 0 0 (some 200) "general" []),
       { c1Pre with isRecording := false, recordingSession := none,
                    userStreams := [], endTimers := [], connection := false }) ∧
    (handleStop 200 AUTHORIZED_USER_ID c1Pre).2.dispatched = c1Pre.dispatched :=
  endSession_cleanup 200 c1Pre (Session.mk 0 0 none "general" [])
    (by decide) (by decide)

/-- Claim C2: stale-timer protection.  In every reachable state, a
registered end timer for a speaker agrees (via the ghost allocation id) with
the stream record currently pending for that speaker — a turn that replaced
an older one can never be observed by that older turn's timer, because every
path that removes or replaces a speaker's stream entry also removes that
speaker's timer.  Consequently, when the timer fires, the turn it finalizes
(stream cleanup, removal from both maps, dispatch of the turn result built
from the armed record at the timer's deadline) is exactly the logical turn
instance it was armed for. -/
theorem stale_timer_guard (env : Env) (uid : String) (tmr : TimerInfo)
    (info : StreamInfo) (s : BotState)
    (hreach : Reachable env s)
    (htimer : lookupKey uid s.endTimers = some tmr)
    (hstream : lookupKey uid s.userStreams = some info) :
    info.gen = tmr.armedGen ∧
    fireRegistered env uid false s =
      { s with userStreams := eraseKey uid s.userStreams,
               endTimers := eraseKey uid s.endTimers,
               dispatched := s.dispatched ++ [mkTurnResult env tmr.fireAt uid info] } := by
  rcases reachable_timerInv env s hreach uid tmr htimer with ⟨i, hl, hg⟩
  rw [hstream] at hl
  cases hl
  refine ⟨hg, ?_⟩
  rw [fireRegistered_eq_of_some env uid false s tmr htimer]
  exact timerCallback_eq_finalize env tmr.fireAt uid s info hstream

/-- Claim C2 witness: the end-pending state reached by record / start /
end, whose timer (deadline 3000) was armed for allocation 0, which is still
the pending stream record when the timer fires. -/
theorem stale_timer_guard_witness :
    StreamInfo.gen
        (StreamInfo.mk "alice" 0 "session_0_A_0.pcm" "session_0_A_0.wav" 0) =
      TimerInfo.armedGen (TimerInfo.mk 3000 0) ∧
    fireRegistered envA "A" false wsPending =
      { wsPending with
          userStreams := eraseKey "A" wsPending.userStreams,
          endTimers := eraseKey "A" wsPending.endTimers,
          dispatched := wsPending.dispatched ++
            [mkTurnResult envA (TimerInfo.fireAt (TimerInfo.mk 3000 0)) "A"
              (StreamInfo.mk "alice" 0 "session_0_A_0.pcm" "session_0_A_0.wav" 0)] } :=
  stale_timer_guard envA "A" (TimerInfo.mk 3000 0)
    (StreamInfo.mk "alice" 0 "session_0_A_0.pcm" "session_0_A_0.wav" 0)
    wsPending
    (Reachable.speakEnd 2000 "A" wsCapturing
      (Reachable.speakStart 0 "A" wsBase
        (Reachable.record 0 AUTHORIZED_USER_ID (some "general") initState
          Reachable.init)))
    (by decide) (by decide)

/-- Claim C3, counterexample to the claim as stated.  In the scenario
(start 0 / stop 2000 / restart 2500 / stop 4000, debounce 1000 ms), exactly
one turn is produced with `startTimestamp` 0, but its `durationMillis` is
5000, not 4000: the duration is `Date.now() - startTime` measured when the
debounce timer fires at t = 5000, so the trailing 1000 ms quiet period is
included. -/
theorem merged_turn_duration_cx :
    c3Final.dispatched.map (fun r => (r.startTimestamp, r.durationMillis)) =
      [((0 : Nat), (5000 : Nat))] ∧
    c3Final.dispatched.map (fun r => (r.startTimestamp, r.durationMillis)) ≠
      [((0 : Nat), (4000 : Nat))] := by
  decide

/-- Claim C3 as amended: the scenario produces exactly one turn for "A"
with `startTimestamp` 0 and `durationMillis` 5000 (capture start to
debounce-timer firing time, i.e. raw stop time 4000 plus the 1000 ms
debounce tail). -/
theorem merged_turn_duration :
    c3Final.dispatched.length = 1 ∧
    c3Final.dispatched.map
        (fun r => (r.userId, r.startTimestamp, r.durationMillis)) =
      [("A", (0 : Nat), (5000 : Nat))] ∧
    c3Final.userStreams = [] ∧ c3Final.endTimers = [] := by
  decide

/-- Claim C4: a speaking-start for a speaker whose turn is end-pending
(stream entry present, debounce timer registered) cancels the pending timer
— so the armed finalization can never run — creates no new turn (the stream
map and the allocation counter are untouched), and preserves the existing
turn's record, in particular its original `startTimestamp`. -/
theorem speaking_start_cancels_end_timer (env : Env) (t : Nat) (X : String)
    (s : BotState) (info : StreamInfo) (tmr : TimerInfo)
    (hrec : s.isRecording = true)
    (hstream : lookupKey X s.userStreams = some info)
    (_htimer : lookupKey X s.endTimers = some tmr) :
    onSpeakStart env t X s = { s with endTimers := eraseKey X s.endTimers } ∧
    lookupKey X (onSpeakStart env t X s).endTimers = none ∧
    (onSpeakStart env t X s).userStreams = s.userStreams ∧
    lookupKey X (onSpeakStart env t X s).userStreams = some info ∧
    (onSpeakStart env t X s).nextGen = s.nextGen := by
  have hus : containsKey X s.userStreams = true := by
    unfold containsKey; rw [hstream]; rfl
  have heq := onSpeakStart_eq_continue env t X s hrec hus
  refine ⟨heq, ?_, ?_, ?_, ?_⟩
  · rw [heq]; exact lookupKey_eraseKey_self X s.endTimers
  · rw [heq]
  · rw [heq]; exact hstream
  · rw [heq]

/-- Claim C4 witness at the concrete end-pending state. -/
theorem speaking_start_cancels_end_timer_witness :
    onSpeakStart envA 2500 "A" wsPending =
      { wsPending with endTimers := eraseKey "A" wsPending.endTimers } ∧
    lookupKey "A" (onSpeakStart envA 2500 "A" wsPending).endTimers = none ∧
    (onSpeakStart envA 2500 "A" wsPending).userStreams = wsPending.userStreams ∧
    lookupKey "A" (onSpeakStart envA 2500 "A" wsPending).userStreams =
      some (StreamInfo.mk "alice" 0 "session_0_A_0.pcm" "session_0_A_0.wav" 0) ∧
    (onSpeakStart envA 2500 "A" wsPending).nextGen = wsPending.nextGen :=
  speaking_start_cancels_end_timer envA 2500 "A" wsPending
    (StreamInfo.mk "alice" 0 "session_0_A_0.pcm" "session_0_A_0.wav" 0)
    (TimerInfo.mk 3000 0) (by decide) (by decide) (by decide)

/-- Claim C5: a speaking-start for a speaker already capturing (stream
entry present, no pending timer) is a complete no-op — the whole state is
unchanged, so no second turn is created, `startTimestamp` is untouched and
the active-turn map is exactly as before. -/
theorem speaking_start_idempotent (env : Env) (t : Nat) (X : String)
    (s : BotState) (info : StreamInfo)
    (hstream : lookupKey X s.userStreams = some info)
    (htimer : lookupKey X s.endTimers = none) :
    onSpeakStart env t X s = s := by
  rcases Bool.eq_false_or_eq_true s.isRecording with hrec | hrec
  case inr => exact onSpeakStart_eq_of_not_recording env t X s hrec
  case inl =>
    have hus : containsKey X s.userStreams = true := by
      unfold containsKey; rw [hstream]; rfl
    rw [onSpeakStart_eq_continue env t X s hrec hus,
      eraseKey_of_lookup_none X s.endTimers htimer]

/-- Claim C5 witness at the concrete capturing state. -/
theorem speaking_start_idempotent_witness :
    onSpeakStart envA 1234 "A" wsCapturing = wsCapturing :=
  speaking_start_idempotent envA 1234 "A" wsCapturing
    (StreamInfo.mk "alice" 0 "session_0_A_0.pcm" "session_0_A_0.wav" 0)
    (by decide) (by decide)

/-- Claim C6: a speaking-end for a speaker with no active turn is a
no-op: the handler returns without arming a timer or touching any state
(active-turn map, timer map and session all unchanged). -/
theorem speaking_end_noop_without_turn (t : Nat) (X : String) (s : BotState)
    (h : lookupKey X s.userStreams = none) :
    onSpeakEnd t X s = s :=
  onSpeakEnd_eq_of_none t X s h

/-- Claim C6 witness: a stray end event for "B" in a session with no
stream for "B". -/
theorem speaking_end_noop_without_turn_witness :
    onSpeakEnd 7 "B" wsBase = wsBase :=
  speaking_end_noop_without_turn 7 "B" wsBase (by decide)

/-- Claim C7: `/record` from the authorized user while a session is active
replies `AlreadyRecording` and returns the state unchanged — no new session
is created and the existing session, both maps and all per-speaker state are
exactly as before. -/
theorem record_while_recording_rejected (t : Nat) (voice : Option String)
    (s : BotState) (h : s.isRecording = true) :
    handleRecord t AUTHORIZED_USER_ID voice s = (CmdResult.alreadyRecording, s) := by
  simp [handleRecord, h]

/-- Claim C7 witness: `/record` during the active session started at 0. -/
theorem record_while_recording_rejected_witness :
    handleRecord 50 AUTHORIZED_USER_ID (some "other") wsBase =
      (CmdResult.alreadyRecording, wsBase) :=
  record_while_recording_rejected 50 (some "other") wsBase (by decide)

/-- Claim C8: `/stop` from the authorized user while no session is active
replies `NoActiveSession` and returns the state unchanged; the rejection is
an ordinary reply to the caller (a returned value of the total handler), not
a thrown error. -/
theorem stop_without_session_rejected (t : Nat) (s : BotState)
    (h : s.isRecording = false) :
    handleStop t AUTHORIZED_USER_ID s = (CmdResult.noActiveSession, s) := by
  simp [handleStop, h]

/-- Claim C8 witness: `/stop` at process start. -/
theorem stop_without_session_rejected_witness :
    handleStop 5 AUTHORIZED_USER_ID initState =
      (CmdResult.noActiveSession, initState) :=
  stop_without_session_rejected 5 initState (by decide)

/-- Claim C9: when starting capture for speaker X errors (the `catch`
block of the 'start' handler; X had no stored stream record, since the
handler returns early otherwise), the nascent turn is dropped with no
dispatch: afterwards X has no active-turn entry, the active-turn map, the
dispatch log, the session object and the recording flag are unchanged, and
every other speaker's timer registration is untouched. -/
theorem capture_error_scoped (X : String) (s : BotState)
    (h : lookupKey X s.userStreams = none) :
    (onSpeakStartErr X s).userStreams = s.userStreams ∧
    lookupKey X (onSpeakStartErr X s).userStreams = none ∧
    (onSpeakStartErr X s).dispatched = s.dispatched ∧
    (onSpeakStartErr X s).recordingSession = s.recordingSession ∧
    (onSpeakStartErr X s).isRecording = s.isRecording ∧
    (∀ Y, Y ≠ X → lookupKey Y (onSpeakStartErr X s).endTimers =
      lookupKey Y s.endTimers) := by
  rcases Bool.eq_false_or_eq_true s.isRecording with hrec | hrec
  case inr =>
    rw [onSpeakStartErr_eq_of_not_recording X s hrec]
    exact ⟨rfl, h, rfl, rfl, rfl, fun _ _ => rfl⟩
  case inl =>
    rw [onSpeakStartErr_eq_of_recording X s hrec]
    refine ⟨rfl, h, rfl, rfl, rfl, ?_⟩
    intro Y hY
    exact lookupKey_eraseKey_ne X Y s.endTimers hY

/-- Claim C9 witness: a failed capture start for "B" during the session
with "A" absent and present timers untouched for others. -/
theorem capture_error_scoped_witness :
    (onSpeakStartErr "B" wsPending).userStreams = wsPending.userStreams ∧
    lookupKey "B" (onSpeakStartErr "B" wsPending).userStreams = none ∧
    (onSpeakStartErr "B" wsPending).dispatched = wsPending.dispatched ∧
    (onSpeakStartErr "B" wsPending).recordingSession =
      wsPending.recordingSession ∧
    (onSpeakStartErr "B" wsPending).isRecording = wsPending.isRecording ∧
    (∀ Y, Y ≠ "B" → lookupKey Y (onSpeakStartErr "B" wsPending).endTimers =
      lookupKey Y wsPending.endTimers) :=
  capture_error_scoped "B" wsPending (by decide)

/-- Claim C10: the key-set inclusion "every speaker with a registered
pending end timer also has an active stream entry" is preserved by every
event handler: speaking start (both its success and error paths), speaking
end, a registered timer firing (with or without a user-fetch failure), and
the `/stop` and `/record` command handlers. -/
theorem timer_subset_invariant_preserved (env : Env) (t : Nat)
    (uid caller : String) (voice : Option String) (fetchErr : Bool)
    (s : BotState) (h : TimerStreamSubset s = true) :
    TimerStreamSubset (onSpeakStart env t uid s) = true ∧
    TimerStreamSubset (onSpeakStartErr uid s) = true ∧
    TimerStreamSubset (onSpeakEnd t uid s) = true ∧
    TimerStreamSubset (fireRegistered env uid fetchErr s) = true ∧
    TimerStreamSubset (handleStop t caller s).2 = true ∧
    TimerStreamSubset (handleRecord t caller voice s).2 = true :=
  ⟨subset_onSpeakStart env t uid s h,
   subset_onSpeakStartErr uid s h,
   subset_onSpeakEnd t uid s h,
   subset_fireRegistered env uid fetchErr s h,
   subset_handleStop t caller s h,
   subset_handleRecord t caller voice s h⟩

/-- Claim C10 witness at the concrete end-pending state (timer key set
{"A"} ⊆ stream key set {"A"}). -/
theorem timer_subset_invariant_preserved_witness :
    TimerStreamSubset (onSpeakStart envA 2500 "A" wsPending) = true ∧
    TimerStreamSubset (onSpeakStartErr "A" wsPending) = true ∧
    TimerStreamSubset (onSpeakEnd 2500 "A" wsPending) = true ∧
    TimerStreamSubset (fireRegistered envA "A" false wsPending) = true ∧
    TimerStreamSubset (handleStop 2500 AUTHORIZED_USER_ID wsPending).2 = true ∧
    TimerStreamSubset
      (handleRecord 2500 AUTHORIZED_USER_ID (some "x") wsPending).2 = true :=
  timer_subset_invariant_preserved envA 2500 "A" AUTHORIZED_USER_ID (some "x")
    false wsPending (by decide)

end Ricardo
